import Mathlib

/-!
Shallow embedding of `quinn-proto/src/connection/paths.rs`: per-path state
(`PathData`) and the RFC 6298-style round-trip-time filter (`RttEstimator`).

Modelling conventions:
- `Duration` values are nanosecond counts (`Nat`); Rust `Duration` addition,
  multiplication by a constant, and division by a constant act on the total
  nanosecond magnitude with truncating division, which `Nat` arithmetic matches.
- `Instant` and `SocketAddr` are opaque to this core and are modelled as `Nat`.
- The byte counters `total_sent`/`total_recvd` are Rust `u64`; the arithmetic
  inside `anti_amplification_blocked` wraps, so it is written with `% U64`.
-/

/-- Opaque network endpoint identifier (IP + port equivalent). -/
abbrev SocketAddr := Nat

/-- A point in time; opaque to this core. -/
abbrev Instant := Nat

/-- A duration in nanoseconds. -/
abbrev Duration := Nat

/-- The modulus of 64-bit unsigned (wrapping) arithmetic. -/
def U64 : Nat := 2 ^ 64

/-- Modelled from the spec: the configured minimum safe datagram size
(`MIN_MTU`), a process-wide constant not present in the excerpt; the QUIC
minimum of 1200 bytes is used, and no claim depends on the value. -/
def MIN_MTU : Nat := 1200

/-- Modelled from the spec: the process-wide minimum timer resolution constant
(`TIMER_GRANULARITY`), not present in the excerpt; one millisecond in
nanoseconds is used, and no claim depends on the value. -/
def TIMER_GRANULARITY : Duration := 1000000

/-- Modelled from the spec: the congestion controller capability is consumed
only through its initial window, its current window, and an independent-copy
operation; the adaptation algorithm is out of scope, so a controller is
abstracted to its two observable window sizes. -/
structure Controller where
  initial_window : Nat
  window : Nat
deriving DecidableEq, Repr

/-- Modelled from the spec: `clone_box` yields an independent copy whose
reported current window equals the source's at the moment of cloning; on a
pure value the copy is the value itself. -/
def Controller.clone_box (c : Controller) : Controller := c

/-- Modelled from the spec: pacer internals are out of scope; a pacer is
(re-)instantiable from an RTT, a congestion window size, a datagram size and a
timestamp, so it is modelled as the record of those four construction inputs. -/
structure Pacer where
  rtt : Duration
  window : Nat
  mtu : Nat
  now : Instant
deriving DecidableEq, Repr

/-- Pacer construction (`Pacer::new`), capturing its four inputs. -/
def Pacer.new (smoothed_rtt : Duration) (window : Nat) (mtu : Nat)
    (now : Instant) : Pacer :=
  { rtt := smoothed_rtt, window := window, mtu := mtu, now := now }

/-- RFC 6298-style RTT filter state (`RttEstimator` in `paths.rs`). -/
structure RttEstimator where
  /-- The most recent RTT measurement. -/
  latest : Duration
  /-- The smoothed RTT of the connection; `none` until the first sample. -/
  smoothed : Option Duration
  /-- The RTT variance. -/
  var : Duration
  /-- The minimum RTT seen, ignoring ack delay. -/
  min : Duration
deriving DecidableEq, Repr

/-- `RttEstimator::new(initial_rtt)`. -/
def RttEstimator.new (initial_rtt : Duration) : RttEstimator :=
  { latest := initial_rtt
    smoothed := none
    var := initial_rtt / 2
    min := initial_rtt }

/-- `RttEstimator::update(ack_delay, rtt)`: sets `latest`, lowers `min`, then
either seeds the filter (first sample) or applies the recursive smoothing
formulas. Rust `Duration` subtraction `latest - ack_delay` is evaluated only
under the guard; see `RttEstimator.updateChecked` for the underflow model. -/
def RttEstimator.update (e : RttEstimator) (ack_delay rtt : Duration) :
    RttEstimator :=
  let latest := rtt
  let mn := Nat.min e.min latest
  match e.smoothed with
  | some smoothed =>
      let adjusted_rtt := if mn + ack_delay < latest then latest - ack_delay
        else latest
      let var_sample := if smoothed > adjusted_rtt then smoothed - adjusted_rtt
        else adjusted_rtt - smoothed
      { latest := latest
        smoothed := some ((7 * smoothed + adjusted_rtt) / 8)
        var := (3 * e.var + var_sample) / 4
        min := mn }
  | none =>
      { latest := latest
        smoothed := some latest
        var := latest / 2
        min := latest }

/-- Subtraction of durations as Rust evaluates it: defined only when no
underflow occurs (Rust `Duration - Duration` fails on underflow). -/
def checkedSub (a b : Nat) : Option Nat :=
  if b ≤ a then some (a - b) else none

/-- `RttEstimator::update` with the one fallible step, the duration
subtraction `latest - ack_delay`, made explicit via `checkedSub`: the result
is `none` exactly when Rust would fail on underflow. -/
def RttEstimator.updateChecked (e : RttEstimator) (ack_delay rtt : Duration) :
    Option RttEstimator :=
  let latest := rtt
  let mn := Nat.min e.min latest
  match e.smoothed with
  | some smoothed =>
      (if mn + ack_delay < latest then checkedSub latest ack_delay
        else some latest).map fun adjusted_rtt =>
          let var_sample := if smoothed > adjusted_rtt
            then smoothed - adjusted_rtt
            else adjusted_rtt - smoothed
          { latest := latest
            smoothed := some ((7 * smoothed + adjusted_rtt) / 8)
            var := (3 * e.var + var_sample) / 4
            min := mn }
  | none =>
      some { latest := latest
             smoothed := some latest
             var := latest / 2
             min := latest }

/-- `RttEstimator::get()`. -/
def RttEstimator.get (e : RttEstimator) : Duration :=
  e.smoothed.getD e.latest

/-- `RttEstimator::conservative()`. -/
def RttEstimator.conservative (e : RttEstimator) : Duration :=
  Nat.max e.get e.latest

/-- `RttEstimator::pto_base()`. -/
def RttEstimator.pto_base (e : RttEstimator) : Duration :=
  e.get + Nat.max (4 * e.var) TIMER_GRANULARITY

/-- Folding a list of `(ack_delay, rtt)` samples through `update`; the states
reachable from `e` by update calls are exactly the `e.runUpdates l`. -/
def RttEstimator.runUpdates (e : RttEstimator) (l : List (Nat × Nat)) :
    RttEstimator :=
  l.foldl (fun acc p => acc.update p.1 p.2) e

/-- Per-path state (`PathData` in `paths.rs`). -/
structure PathData where
  remote : SocketAddr
  rtt : RttEstimator
  /-- Whether we're enabling ECN on outgoing packets. -/
  sending_ecn : Bool
  /-- Congestion controller state. -/
  congestion : Controller
  /-- Pacing state. -/
  pacing : Pacer
  challenge : Option Nat
  challenge_pending : Bool
  /-- Whether we're certain the peer can both send and receive on this
  address. -/
  validated : Bool
  /-- Total size of all UDP datagrams sent on this path (u64). -/
  total_sent : Nat
  /-- Total size of all UDP datagrams received on this path (u64). -/
  total_recvd : Nat
  mtu : Nat
deriving DecidableEq, Repr

/-- `PathData::new`. -/
def PathData.new (remote : SocketAddr) (initial_rtt : Duration)
    (congestion : Controller) (now : Instant) (validated : Bool) : PathData :=
  { remote := remote
    rtt := RttEstimator.new initial_rtt
    sending_ecn := true
    pacing := Pacer.new initial_rtt congestion.initial_window MIN_MTU now
    congestion := congestion
    challenge := none
    challenge_pending := false
    validated := validated
    total_sent := 0
    total_recvd := 0
    mtu := MIN_MTU }

/-- `PathData::from_previous`. -/
def PathData.from_previous (remote : SocketAddr) (prev : PathData)
    (now : Instant) : PathData :=
  let congestion := prev.congestion.clone_box
  let smoothed_rtt := prev.rtt.get
  { remote := remote
    rtt := prev.rtt
    pacing := Pacer.new smoothed_rtt congestion.window prev.mtu now
    sending_ecn := true
    congestion := congestion
    challenge := none
    challenge_pending := false
    validated := false
    total_sent := 0
    total_recvd := 0
    mtu := prev.mtu }

/-- `PathData::anti_amplification_blocked(bytes_to_send)`; the `u64`
multiplication and addition wrap modulo `2^64`. -/
def PathData.anti_amplification_blocked (p : PathData)
    (bytes_to_send : Nat) : Bool :=
  !p.validated &&
    decide ((p.total_recvd * 3) % U64 < (p.total_sent + bytes_to_send) % U64)

/-- A concrete path with the given validation flag and counters; the other
fields are arbitrary defaults. Used to evaluate the amplification gate. -/
def mkPath (v : Bool) (sent recvd : Nat) : PathData :=
  { remote := 0
    rtt := RttEstimator.new 1
    sending_ecn := true
    congestion := { initial_window := 0, window := 0 }
    pacing := Pacer.new 0 0 0 0
    challenge := none
    challenge_pending := false
    validated := v
    total_sent := sent
    total_recvd := recvd
    mtu := MIN_MTU }

/-- C4: constructing from any initial guess `g` and making one call
`update(d, r)` yields `smoothed = some r`, `var = r / 2` and `min = r`,
independent of `g` and `d`. -/
theorem rtt_first_sample_seeding (g d r : Nat) :
    ((RttEstimator.new g).update d r).smoothed = some r ∧
    ((RttEstimator.new g).update d r).var = r / 2 ∧
    ((RttEstimator.new g).update d r).min = r := by
  refine ⟨rfl, rfl, rfl⟩

/-- C5: `PathData.new` always yields `challenge_pending = false`, no
outstanding challenge, `sending_ecn = true`, MTU equal to the minimum safe
datagram size, zeroed counters, `validated` as supplied, an RTT estimator
seeded from the guess, and a pacer built from the guess, the controller's
initial window, the minimum safe datagram size and the creation time. -/
theorem path_new_defaults (remote : SocketAddr) (g : Duration)
    (c : Controller) (now : Instant) (v : Bool) :
    (PathData.new remote g c now v).challenge_pending = false ∧
    (PathData.new remote g c now v).challenge = none ∧
    (PathData.new remote g c now v).sending_ecn = true ∧
    (PathData.new remote g c now v).mtu = MIN_MTU ∧
    (PathData.new remote g c now v).total_sent = 0 ∧
    (PathData.new remote g c now v).total_recvd = 0 ∧
    (PathData.new remote g c now v).validated = v ∧
    (PathData.new remote g c now v).rtt = RttEstimator.new g ∧
    (PathData.new remote g c now v).pacing =
      Pacer.new g c.initial_window MIN_MTU now := by
  refine ⟨rfl, rfl, rfl, rfl, rfl, rfl, rfl, rfl, rfl⟩

/-- C2: a migrated path starts unvalidated with zeroed counters, no
outstanding challenge, ECN on, the source's MTU, the source's RTT estimator
fields verbatim, and a pacer freshly built from the source's smoothed RTT
(`get()`), the cloned controller's current window, the source's MTU, and the
creation time — regardless of the source path's state. -/
theorem from_previous_spec (remote : SocketAddr) (prev : PathData)
    (now : Instant) :
    (PathData.from_previous remote prev now).validated = false ∧
    (PathData.from_previous remote prev now).total_sent = 0 ∧
    (PathData.from_previous remote prev now).total_recvd = 0 ∧
    (PathData.from_previous remote prev now).challenge = none ∧
    (PathData.from_previous remote prev now).challenge_pending = false ∧
    (PathData.from_previous remote prev now).sending_ecn = true ∧
    (PathData.from_previous remote prev now).mtu = prev.mtu ∧
    (PathData.from_previous remote prev now).rtt.latest = prev.rtt.latest ∧
    (PathData.from_previous remote prev now).rtt.smoothed =
      prev.rtt.smoothed ∧
    (PathData.from_previous remote prev now).rtt.var = prev.rtt.var ∧
    (PathData.from_previous remote prev now).rtt.min = prev.rtt.min ∧
    (PathData.from_previous remote prev now).pacing =
      Pacer.new prev.rtt.get prev.congestion.clone_box.window prev.mtu now := by
  refine ⟨rfl, rfl, rfl, rfl, rfl, rfl, rfl, rfl, rfl, rfl, rfl, rfl⟩

/-- C3: with `smoothed = some s`, `update(d, r)` first lowers the minimum to
`min (e.min) r`, then forms the ack-delay-adjusted sample
(`r - d` when `min (e.min) r + d < r`, else `r`), and sets
`var = (3·var + |s − adjusted|) / 4` and `smoothed = (7·s + adjusted) / 8`
with truncating division. -/
theorem rtt_update_smoothed_formula (e : RttEstimator) (s d r : Nat)
    (h : e.smoothed = some s) :
    (e.update d r).min = Nat.min e.min r ∧
    (e.update d r).var =
      (3 * e.var +
        (if s > (if Nat.min e.min r + d < r then r - d else r)
         then s - (if Nat.min e.min r + d < r then r - d else r)
         else (if Nat.min e.min r + d < r then r - d else r) - s)) / 4 ∧
    (e.update d r).smoothed =
      some ((7 * s + (if Nat.min e.min r + d < r then r - d else r)) / 8) := by
  refine ⟨?_, ?_, ?_⟩ <;> simp [RttEstimator.update, h]

theorem rtt_update_smoothed_formula_witness :
    ((RttEstimator.mk 8 (some 10) 4 6).update 2 9).min = Nat.min 6 9 ∧
    ((RttEstimator.mk 8 (some 10) 4 6).update 2 9).var =
      (3 * 4 +
        (if 10 > (if Nat.min 6 9 + 2 < 9 then 9 - 2 else 9)
         then 10 - (if Nat.min 6 9 + 2 < 9 then 9 - 2 else 9)
         else (if Nat.min 6 9 + 2 < 9 then 9 - 2 else 9) - 10)) / 4 ∧
    ((RttEstimator.mk 8 (some 10) 4 6).update 2 9).smoothed =
      some ((7 * 10 + (if Nat.min 6 9 + 2 < 9 then 9 - 2 else 9)) / 8) :=
  rtt_update_smoothed_formula (RttEstimator.mk 8 (some 10) 4 6) 10 2 9 rfl

/-- C6: `pto_base()` equals `get() + max (4·var) TIMER_GRANULARITY`; hence
`pto_base() ≥ get() + TIMER_GRANULARITY` in every state, and increasing the
variance while `get()` stays fixed never decreases `pto_base()`. -/
theorem pto_base_spec :
    (∀ e : RttEstimator,
      e.pto_base = e.get + Nat.max (4 * e.var) TIMER_GRANULARITY) ∧
    (∀ e : RttEstimator, e.get + TIMER_GRANULARITY ≤ e.pto_base) ∧
    (∀ a b : RttEstimator, a.get = b.get → a.var ≤ b.var →
      a.pto_base ≤ b.pto_base) := by
  refine ⟨fun e => rfl, fun e => ?_, fun a b hget hvar => ?_⟩
  · exact Nat.add_le_add_left (Nat.le_max_right _ _) _
  · unfold RttEstimator.pto_base
    rw [hget]
    exact Nat.add_le_add_left
      (max_le_max (Nat.mul_le_mul_left 4 hvar) le_rfl) _

theorem pto_base_spec_witness :
    (RttEstimator.new 100).pto_base ≤
      (RttEstimator.mk 100 none 60 100).pto_base :=
  pto_base_spec.2.2 (RttEstimator.new 100) (RttEstimator.mk 100 none 60 100)
    rfl (by decide)

/-- C7: in every state, `get()` returns `latest` when no sample has arrived
(`smoothed = none`) and returns the smoothed value when `smoothed = some s`;
in particular it holds in the fresh state and in every state reachable by
update calls, and it never fails. -/
theorem rtt_get_delegation (e : RttEstimator) :
    (e.smoothed = none → e.get = e.latest) ∧
    (∀ s, e.smoothed = some s → e.get = s) := by
  refine ⟨fun h => ?_, fun s h => ?_⟩ <;> simp [RttEstimator.get, h]

theorem rtt_get_delegation_witness :
    (RttEstimator.new 5).get = (RttEstimator.new 5).latest ∧
    (RttEstimator.mk 5 (some 7) 2 5).get = 7 :=
  ⟨(rtt_get_delegation (RttEstimator.new 5)).1 rfl,
   (rtt_get_delegation (RttEstimator.mk 5 (some 7) 2 5)).2 7 rfl⟩

theorem runUpdates_smoothed_isSome :
    ∀ (l : List (Nat × Nat)) (e : RttEstimator),
      e.smoothed.isSome = true →
      (e.runUpdates l).smoothed.isSome = true := by
  intro l
  induction l with
  | nil => intro e h; exact h
  | cons p t ih =>
      intro e h
      refine ih (e.update p.1 p.2) ?_
      cases hs : e.smoothed <;> simp [RttEstimator.update, hs]

/-- C8: a freshly constructed estimator has `smoothed = none`,
`var = latest / 2` and `latest` equal to the guess; every `update` call
leaves `smoothed` a `some`, so after the first sample `smoothed` is `some`
in every reachable state. -/
theorem rtt_smoothed_invariant :
    (∀ g, (RttEstimator.new g).smoothed = none ∧
      (RttEstimator.new g).var = (RttEstimator.new g).latest / 2 ∧
      (RttEstimator.new g).latest = g) ∧
    (∀ (e : RttEstimator) (d r : Nat),
      ((e.update d r).smoothed).isSome = true) ∧
    (∀ (g d r : Nat) (l : List (Nat × Nat)),
      (((RttEstimator.new g).update d r).runUpdates l).smoothed.isSome
        = true) := by
  refine ⟨fun g => ⟨rfl, rfl, rfl⟩, fun e d r => ?_, fun g d r l => ?_⟩
  · cases hs : e.smoothed <;> simp [RttEstimator.update, hs]
  · refine runUpdates_smoothed_isSome l _ ?_
    cases hs : (RttEstimator.new g).smoothed <;>
      simp [RttEstimator.update, hs]

/-- C9: the duration subtraction inside `update` can never underflow: the
checked variant, in which `latest - ack_delay` fails on underflow exactly as
Rust `Duration` subtraction does, always succeeds and agrees with `update`,
for every state and every pair of inputs. -/
theorem rtt_update_no_underflow (e : RttEstimator) (d r : Nat) :
    e.updateChecked d r = some (e.update d r) := by
  cases h : e.smoothed with
  | none => simp [RttEstimator.updateChecked, RttEstimator.update, h]
  | some s =>
      by_cases hg : Nat.min e.min r + d < r
      · have hd : d ≤ r := by
          have hm := Nat.min_le_right e.min r
          omega
        simp [RttEstimator.updateChecked, RttEstimator.update, h, hg,
          checkedSub, hd]
      · simp [RttEstimator.updateChecked, RttEstimator.update, h, hg]

/-- C10: `anti_amplification_blocked` computes `total_recvd * 3` and
`total_sent + bytes_to_send` modulo `2^64`; whenever both products stay
within `u64` range, its result coincides with the exact unbounded comparison
`3·total_recvd < total_sent + bytes_to_send` (gated on non-validation). -/
theorem anti_amp_u64_semantics :
    (∀ (p : PathData) (b : Nat),
      p.anti_amplification_blocked b =
        (!p.validated &&
          decide ((p.total_recvd * 3) % U64 < (p.total_sent + b) % U64))) ∧
    (∀ (p : PathData) (b : Nat),
      p.total_recvd * 3 ≤ U64 - 1 → p.total_sent + b ≤ U64 - 1 →
      p.anti_amplification_blocked b =
        (!p.validated && decide (3 * p.total_recvd < p.total_sent + b))) := by
  refine ⟨fun p b => rfl, fun p b h1 h2 => ?_⟩
  have hU : 0 < U64 := by decide
  have h1' : p.total_recvd * 3 < U64 := by omega
  have h2' : p.total_sent + b < U64 := by omega
  unfold PathData.anti_amplification_blocked
  rw [Nat.mod_eq_of_lt h1', Nat.mod_eq_of_lt h2', Nat.mul_comm]

theorem anti_amp_u64_semantics_witness :
    (mkPath false 300 100).anti_amplification_blocked 1 =
      (!(mkPath false 300 100).validated &&
        decide (3 * (mkPath false 300 100).total_recvd <
          (mkPath false 300 100).total_sent + 1)) :=
  anti_amp_u64_semantics.2 (mkPath false 300 100) 1 (by decide) (by decide)

theorem anti_amp_exact_counterexample :
    (mkPath false (2 ^ 63 + 1) (2 ^ 63)).total_sent < U64 ∧
    (mkPath false (2 ^ 63 + 1) (2 ^ 63)).total_recvd < U64 ∧
    (mkPath false (2 ^ 63 + 1) (2 ^ 63)).validated = false ∧
    (mkPath false (2 ^ 63 + 1) (2 ^ 63)).anti_amplification_blocked 0
      = true ∧
    ¬ (3 * (mkPath false (2 ^ 63 + 1) (2 ^ 63)).total_recvd <
        (mkPath false (2 ^ 63 + 1) (2 ^ 63)).total_sent + 0) := by
  refine ⟨by decide, by decide, rfl, by decide, by decide⟩

/-- C1 (amended): for every path state and `bytes_to_send` in which neither
`total_recvd * 3` nor `total_sent + bytes_to_send` overflows `u64`,
`anti_amplification_blocked` returns true iff the path is not validated and
`3·total_recvd < total_sent + bytes_to_send`; in particular with
`validated = false`, `total_sent = 300`, `total_recvd = 100` the call with
`bytes_to_send = 0` returns false and with `bytes_to_send = 1` returns true,
and with `validated = true` both calls return false. -/
theorem anti_amp_exact_amended :
    (∀ (p : PathData) (b : Nat),
      3 * p.total_recvd < U64 → p.total_sent + b < U64 →
      (p.anti_amplification_blocked b = true ↔
        p.validated = false ∧ 3 * p.total_recvd < p.total_sent + b)) ∧
    (mkPath false 300 100).anti_amplification_blocked 0 = false ∧
    (mkPath false 300 100).anti_amplification_blocked 1 = true ∧
    (mkPath true 300 100).anti_amplification_blocked 0 = false ∧
    (mkPath true 300 100).anti_amplification_blocked 1 = false := by
  refine ⟨fun p b h1 h2 => ?_, by decide, by decide, by decide, by decide⟩
  have h1' : p.total_recvd * 3 < U64 := by omega
  unfold PathData.anti_amplification_blocked
  rw [Nat.mod_eq_of_lt h1', Nat.mod_eq_of_lt h2]
  simp [Nat.mul_comm]

theorem anti_amp_exact_amended_witness :
    (mkPath false 300 100).anti_amplification_blocked 1 = true ↔
      (mkPath false 300 100).validated = false ∧
        3 * (mkPath false 300 100).total_recvd <
          (mkPath false 300 100).total_sent + 1 :=
  anti_amp_exact_amended.1 (mkPath false 300 100) 1 (by decide) (by decide)
